import Mathlib

/-!
Verification of the HelpScout MCP resilient API-access layer
(src/utils/helpscout-client.ts) against its specification.

The TypeScript client is shallowly embedded: every definition below is a
direct translation of the corresponding source function.  Numbers that the
source manipulates as JS numbers (delays, Math.random) are modelled as
rationals; HTTP statuses and header values as naturals; JS undefined /
null and string truthiness are modelled explicitly.
-/

/-- A JS runtime value, as far as the client inspects one: enough to decide
truthiness.  `vObj` stands for any object or array (always truthy). -/
inductive JsValue where
  | vUndefined
  | vNull
  | vBool (b : Bool)
  | vNum (n : ℚ)
  | vStr (s : String)
  | vObj (tag : Nat)
deriving DecidableEq

/-- Emptiness of a string, computed over its character list (the built-in
byte-position based String primitives do not reduce in the kernel). -/
def strIsEmpty (s : String) : Bool := s.data.isEmpty

/-- JS String.startsWith, computed over character lists. -/
def strStartsWith (s pat : String) : Bool := pat.data.isPrefixOf s.data

/-- Replace the first occurrence of `pat` in `cs` by `rep` (the semantics
of JS String.replace with a plain string pattern). -/
def replaceFirstList (cs pat rep : List Char) : List Char :=
  match cs with
  | [] => if pat.isEmpty then rep else []
  | c :: rest =>
      if pat.isPrefixOf (c :: rest) then rep ++ (c :: rest).drop pat.length
      else c :: replaceFirstList rest pat rep

/-- JS String.replace with a plain string pattern: replaces only the first
occurrence (`apiKey.replace(..)` in the source). -/
def jsReplaceFirst (s pat rep : String) : String :=
  ⟨replaceFirstList s.data pat.data rep.data⟩

/-- Does `pat` occur as a contiguous sublist of `cs`? -/
def listContainsSub (cs pat : List Char) : Bool :=
  match cs with
  | [] => pat.isEmpty
  | c :: rest => pat.isPrefixOf (c :: rest) || listContainsSub rest pat

/-- JS String.includes as used by getDefaultCacheTtl. -/
def jsIncludes (s pat : String) : Bool := listContainsSub s.data pat.data

/-- JS truthiness of a value, as tested by `if (x)` in the source. -/
def jsTruthy : JsValue → Bool
  | .vUndefined => false
  | .vNull => false
  | .vBool b => b
  | .vNum n => !(decide (n = 0))
  | .vStr s => !(strIsEmpty s)
  | .vObj _ => true

/-- An upstream HTTP response as observed by the client.  Headers are
modelled by the two header values the source ever reads, already parsed:
`retryAfter` is the parseInt of the retry-after header (in seconds) and
`resourceId` the parseInt of the Resource-ID header; `none` means the
header is absent.  `data` is the response body. -/
structure Response where
  status : Nat
  retryAfter : Option Nat
  resourceId : Option Nat
  data : JsValue
deriving DecidableEq

/-- The shape of an axios error object: `response` is present when the
server answered (with a status rejected by validateStatus) and absent on a
pure transport failure; `code` is the transport error code string such as
ECONNABORTED for a client-side timeout. -/
structure AxiosError where
  response : Option Response
  code : Option String
deriving DecidableEq

/-- The normalized error produced by `transformError` (type `ApiError` in
src/schema/types.ts).  The free-text `message` and the `details` map are
elided: no claim concerns them; `code` is the error kind and `retryAfter`
the parsed retry-after seconds included for RATE_LIMIT errors. -/
structure ApiError where
  code : String
  retryAfter : Option Nat
deriving DecidableEq

/-- The two fields of a caught JS error object that `executeWithRetry` and
the default retry condition dereference (`error.response`, `error.code`).
JS property access never fails, so both raw `AxiosError`s and already
normalized `ApiError`s are viewed through this shape. -/
structure JsErrorView where
  response : Option Response
  code : Option String

/-- Field view of a raw axios error. -/
def AxiosError.view (e : AxiosError) : JsErrorView := ⟨e.response, e.code⟩

/-- Field view of a normalized `ApiError` object: it has no `response`
property (JS yields undefined) and its `code` property holds the error
kind string, never a transport code. -/
def ApiError.view (e : ApiError) : JsErrorView := ⟨none, some e.code⟩

/-- RetryConfig from the source: `retries` is the number of retries after
the first attempt, delays are in milliseconds, and `retryCondition` is the
optional predicate (`retryCondition?.(lastError)` in the source).  The
error type is a parameter because at runtime the predicate receives
whatever object the wrapped thunk threw. -/
structure RetryConfig (ε : Type) where
  retries : Nat
  retryDelay : ℚ
  maxRetryDelay : ℚ
  retryCondition : Option (ε → Bool)

/-- Body of the default retry condition closure of `defaultRetryConfig`:
retry on network errors (no response), client timeouts (ECONNABORTED),
5xx responses and 429 rate limits. -/
def defaultRetryConditionView (v : JsErrorView) : Bool :=
  match v.response with
  | none => true
  | some r =>
      v.code == some "ECONNABORTED"
        || (decide (500 ≤ r.status) && decide (r.status < 600))
        || r.status == 429

/-- The default retry configuration of `HelpScoutClient`, applied to raw
axios errors (the static type of its `retryCondition`). -/
def defaultRetryConfig : RetryConfig AxiosError :=
  ⟨3, 1000, 10000, some (fun e => defaultRetryConditionView e.view)⟩

/-- The same default retry configuration as the dynamic semantics apply it
inside the client pipeline: the thunks passed to `executeWithRetry` go
through the axios interceptors, so the objects actually thrown and fed to
the retry condition are normalized `ApiError`s. -/
def defaultRetryConfigApi : RetryConfig ApiError :=
  ⟨3, 1000, 10000, some (fun e => defaultRetryConditionView e.view)⟩

/-- Evaluation of `retryConfig.retryCondition?.(lastError)` coerced to a
boolean by the `!` in the source: an absent condition yields undefined,
which is falsy. -/
def shouldRetryError {ε : Type} (cfg : RetryConfig ε) (e : ε) : Bool :=
  match cfg.retryCondition with
  | some f => f e
  | none => false

/-- calculateRetryDelay from the source: exponential backoff with jitter,
`min(baseDelay * 2 ^ attempt + random * 0.1 * (baseDelay * 2 ^ attempt),
maxDelay)`.  The value drawn by Math.random() is passed in as `r`. -/
def calculateRetryDelay (attempt : Nat) (baseDelay maxDelay : ℚ) (r : ℚ) : ℚ :=
  let exponentialDelay := baseDelay * 2 ^ attempt
  let jitter := r * (1 / 10) * exponentialDelay
  min (exponentialDelay + jitter) maxDelay

/-- The delay chosen by `executeWithRetry` before the next attempt: the
rate-limit branch if the caught error has a response with status 429
(retry-after seconds times 1000, defaulting to 60, capped at
maxRetryDelay), otherwise `calculateRetryDelay`. -/
def retryDelayFor {ε : Type} (view : ε → JsErrorView) (cfg : RetryConfig ε)
    (e : ε) (attempt : Nat) (rand : Nat → ℚ) : ℚ :=
  match (view e).response with
  | some r =>
      if r.status = 429 then
        min (((r.retryAfter.getD 60 : Nat) : ℚ) * 1000) cfg.maxRetryDelay
      else calculateRetryDelay attempt cfg.retryDelay cfg.maxRetryDelay (rand attempt)
  | none => calculateRetryDelay attempt cfg.retryDelay cfg.maxRetryDelay (rand attempt)

/-- Outcome of a run of `executeWithRetry`: the value returned or the last
error rethrown, together with the number of invocations of the wrapped
operation and the sequence of sleeps performed (in milliseconds). -/
inductive RetryResult (ε : Type) where
  | success (r : Response) (calls : Nat) (delays : List ℚ)
  | failure (e : ε) (calls : Nat) (delays : List ℚ)
deriving DecidableEq

/-- Number of invocations of the wrapped operation during the run. -/
def RetryResult.calls {ε : Type} : RetryResult ε → Nat
  | .success _ c _ => c
  | .failure _ c _ => c

/-- The loop of `executeWithRetry`, with the fuel `remaining` standing for
`retryConfig.retries - attempt`: `remaining = 0` exactly when
`attempt === retryConfig.retries`, the break condition of the source.
`op i` is the outcome of the i-th invocation of the wrapped operation and
`rand i` the Math.random() draw used for the i-th backoff. -/
def executeWithRetryGo {ε : Type} (view : ε → JsErrorView) (cfg : RetryConfig ε)
    (op : Nat → Except ε Response) (rand : Nat → ℚ) :
    Nat → Nat → Nat → List ℚ → RetryResult ε
  | attempt, 0, calls, delays =>
    match op attempt with
    | .ok r => .success r (calls + 1) delays
    | .error e => .failure e (calls + 1) delays
  | attempt, rem + 1, calls, delays =>
    match op attempt with
    | .ok r => .success r (calls + 1) delays
    | .error e =>
      if shouldRetryError cfg e then
        executeWithRetryGo view cfg op rand (attempt + 1) rem (calls + 1)
          (delays ++ [retryDelayFor view cfg e attempt rand])
      else .failure e (calls + 1) delays

/-- executeWithRetry from the source: runs the wrapped operation for
attempts 0 through `cfg.retries`, stopping early on success, on the last
allowed attempt, or when the retry condition rejects the failure. -/
def executeWithRetry {ε : Type} (view : ε → JsErrorView) (cfg : RetryConfig ε)
    (op : Nat → Except ε Response) (rand : Nat → ℚ) : RetryResult ε :=
  executeWithRetryGo view cfg op rand 0 cfg.retries 0 []

/-- Credential fields of the configuration provider relevant to
authentication: `helpscout.apiKey`, `helpscout.clientId`,
`helpscout.clientSecret`; `none` models an unset variable. -/
structure HelpScoutConfig where
  apiKey : Option String
  clientId : Option String
  clientSecret : Option String
deriving DecidableEq

/-- The mutable token state of the client: `accessToken` (null when no
token is cached) and `tokenExpiresAt` (milliseconds since epoch). -/
structure ClientState where
  accessToken : Option String
  tokenExpiresAt : Int
deriving DecidableEq

/-- JS truthiness of a possibly-undefined string (empty strings are
falsy). -/
def strTruthy : Option String → Bool
  | none => false
  | some s => !(strIsEmpty s)

/-- Body of a successful OAuth2 token-endpoint response:
`{access_token, expires_in}` with `expires_in` in seconds. -/
structure OAuthTokenResponse where
  access_token : String
  expires_in : Nat
deriving DecidableEq

/-- Outcome of `authenticate()`: the new token state on success, or the
rethrown failure; `upstreamCalled` records whether the token endpoint was
actually contacted. -/
inductive AuthResult where
  | ok (st : ClientState) (upstreamCalled : Bool)
  | fail (upstreamCalled : Bool)
deriving DecidableEq

/-- authenticate from the source.  `now` is Date.now(); `oauth` is the
outcome of the token-endpoint exchange, should it be attempted (`none`
models a failed exchange).  The Personal Access Token path requires the
configured key to be truthy and to start with the literal prefix, adopts
the key with that first prefix occurrence removed, and fixes a 24 hour
expiry without calling upstream.  The OAuth2 path requires truthy client
id and secret and stores the returned token with its declared lifetime
minus a one minute buffer. -/
def authenticate (cfg : HelpScoutConfig) (now : Int)
    (oauth : Option OAuthTokenResponse) : AuthResult :=
  if strTruthy cfg.apiKey && strStartsWith (cfg.apiKey.getD "") "Bearer " then
    .ok ⟨some (jsReplaceFirst (cfg.apiKey.getD "") "Bearer " ""),
         now + 24 * 60 * 60 * 1000⟩ false
  else if !(strTruthy cfg.clientId) || !(strTruthy cfg.clientSecret) then
    .fail false
  else
    match oauth with
    | some resp =>
        .ok ⟨some resp.access_token,
             now + (resp.expires_in : Int) * 1000 - 60000⟩ true
    | none => .fail true

/-- ensureAuthenticated from the source: returns at once when a truthy
token is cached and not yet expired, otherwise runs `authenticate`.  The
boolean component records whether `authenticate` was invoked. -/
def ensureAuthenticated (cfg : HelpScoutConfig) (now : Int)
    (oauth : Option OAuthTokenResponse) (st : ClientState) :
    AuthResult × Bool :=
  if strTruthy st.accessToken && decide (now < st.tokenExpiresAt) then
    (.ok st false, false)
  else (authenticate cfg now oauth, true)

/-- The status the caught error exposes at `error.response?.status`. -/
def respStatus (e : AxiosError) : Option Nat := e.response.map Response.status

/-- transformError from the source: a total mapping from a caught error to
a normalized `ApiError`, in the exact branch order of the source; the 401
branch additionally clears the cached access token.  Returns the updated
client state together with the normalized error. -/
def transformError (st : ClientState) (e : AxiosError) : ClientState × ApiError :=
  if respStatus e = some 401 then
    ({ st with accessToken := none }, ⟨"UNAUTHORIZED", none⟩)
  else if respStatus e = some 403 then (st, ⟨"UNAUTHORIZED", none⟩)
  else if respStatus e = some 404 then (st, ⟨"NOT_FOUND", none⟩)
  else if respStatus e = some 429 then
    (st, ⟨"RATE_LIMIT", some ((e.response.bind Response.retryAfter).getD 60)⟩)
  else if respStatus e = some 422 then (st, ⟨"INVALID_INPUT", none⟩)
  else if (match respStatus e with
           | some s => decide (400 ≤ s) && decide (s < 500)
           | none => false) then (st, ⟨"INVALID_INPUT", none⟩)
  else if e.code = some "ECONNABORTED" then (st, ⟨"UPSTREAM_ERROR", none⟩)
  else if (match respStatus e with
           | some s => decide (500 ≤ s)
           | none => false) then (st, ⟨"UPSTREAM_ERROR", none⟩)
  else (st, ⟨"UPSTREAM_ERROR", none⟩)

/-- validateStatus passed to axios.create in the client constructor: axios
resolves a response (no error is raised, no interceptor error path runs)
exactly when this returns true. -/
def validateStatus (status : Nat) : Bool := decide (status < 500)

/-- What the upstream service does for one dispatched request: either a
response (any status) or a transport failure carrying an error code. -/
inductive Upstream where
  | reply (r : Response)
  | netError (code : Option String)
deriving DecidableEq

/-- Result of one client verb call as its caller observes it. -/
inductive CallResult where
  | ok (r : Response)
  | err (e : ApiError)
deriving DecidableEq

/-- Trace of a single attempt through the axios pipeline: final client
state, whether the request was dispatched to the upstream API, whether
`transformError` ran, whether `authenticate` ran, and the outcome the
awaiting `executeWithRetry` observes. -/
structure AttemptTrace where
  state : ClientState
  dispatched : Bool
  transformed : Bool
  authenticateCalled : Bool
  result : CallResult
deriving DecidableEq

/-- One invocation of the wrapped thunk (`this.client.get(..)` etc.)
through the interceptors: the request interceptor runs
`ensureAuthenticated` (a failure there skips dispatch and still reaches
the response error interceptor, which normalizes the plain Error object:
no `response`, no `code`); a dispatched request resolves when
`validateStatus` accepts the status and otherwise rejects with an
`AxiosError` that the response error interceptor passes to
`transformError`. -/
def runAttempt (cfg : HelpScoutConfig) (now : Int)
    (oauth : Option OAuthTokenResponse) (st : ClientState) (u : Upstream) :
    AttemptTrace :=
  let ea := ensureAuthenticated cfg now oauth st
  match ea.1 with
  | .fail _ =>
      let te := transformError st ⟨none, none⟩
      ⟨te.1, false, true, ea.2, .err te.2⟩
  | .ok st1 _ =>
      match u with
      | .reply r =>
          if validateStatus r.status then ⟨st1, true, false, ea.2, .ok r⟩
          else
            let te := transformError st1 ⟨some r, none⟩
            ⟨te.1, true, true, ea.2, .err te.2⟩
      | .netError c =>
          let te := transformError st1 ⟨none, c⟩
          ⟨te.1, true, true, ea.2, .err te.2⟩

/-- Accumulated observable counters of a client call in progress. -/
structure PipeAcc where
  attempts : Nat
  dispatches : Nat
  transformCalls : Nat
  authenticateCalls : Nat
  delays : List ℚ
  state : ClientState
deriving DecidableEq

/-- Full trace of one client verb call: the result plus every counter of
`PipeAcc` at completion. -/
structure PipeTrace where
  result : CallResult
  attempts : Nat
  dispatches : Nat
  transformCalls : Nat
  authenticateCalls : Nat
  delays : List ℚ
  finalState : ClientState
deriving DecidableEq

/-- Fold one attempt trace into the running counters. -/
def bump (acc : PipeAcc) (a : AttemptTrace) : PipeAcc :=
  ⟨acc.attempts + 1,
   acc.dispatches + (if a.dispatched then 1 else 0),
   acc.transformCalls + (if a.transformed then 1 else 0),
   acc.authenticateCalls + (if a.authenticateCalled then 1 else 0),
   acc.delays,
   a.state⟩

/-- Close the trace with the final outcome. -/
def finish (acc : PipeAcc) (r : CallResult) : PipeTrace :=
  ⟨r, acc.attempts, acc.dispatches, acc.transformCalls,
   acc.authenticateCalls, acc.delays, acc.state⟩

/-- Record a sleep before the next attempt. -/
def addDelay (acc : PipeAcc) (d : ℚ) : PipeAcc :=
  { acc with delays := acc.delays ++ [d] }

/-- executeWithRetry as invoked by the client verbs: the wrapped thunk is
the interceptor pipeline of `runAttempt`, so the thrown objects are
normalized `ApiError`s, and the mutable client state threads through the
attempts.  Fuel `remaining` again stands for `retries - attempt`. -/
def clientLoop (cfg : HelpScoutConfig) (now : Int)
    (oauth : Option OAuthTokenResponse) (ups : Nat → Upstream)
    (rand : Nat → ℚ) (rc : RetryConfig ApiError) :
    Nat → Nat → PipeAcc → PipeTrace
  | attempt, 0, acc =>
    let a := runAttempt cfg now oauth acc.state (ups attempt)
    finish (bump acc a) a.result
  | attempt, rem + 1, acc =>
    let a := runAttempt cfg now oauth acc.state (ups attempt)
    let acc2 := bump acc a
    match a.result with
    | .ok r => finish acc2 (.ok r)
    | .err e =>
      if shouldRetryError rc e then
        clientLoop cfg now oauth ups rand rc (attempt + 1) rem
          (addDelay acc2 (retryDelayFor ApiError.view rc e attempt rand))
      else finish acc2 (.err e)

/-- A full run of one client verb call starting from state `st`. -/
def clientRun (cfg : HelpScoutConfig) (now : Int)
    (oauth : Option OAuthTokenResponse) (st : ClientState)
    (ups : Nat → Upstream) (rand : Nat → ℚ) (rc : RetryConfig ApiError) :
    PipeTrace :=
  clientLoop cfg now oauth ups rand rc 0 rc.retries ⟨0, 0, 0, 0, [], st⟩

/-- Cache options accepted by `get`: an optional `ttl` field, itself an
optionally present number (in seconds). -/
structure CacheOptions where
  ttl : Option Nat
deriving DecidableEq

/-- getDefaultCacheTtl from the source: path-based default TTLs. -/
def getDefaultCacheTtl (endpoint : String) : Nat :=
  if jsIncludes endpoint "/conversations" then 300
  else if jsIncludes endpoint "/mailboxes" then 1440
  else if jsIncludes endpoint "/threads" then 300
  else 300

/-- The TTL `get` passes to cache.set: the caller TTL when the source
condition `cacheOptions?.ttl || cacheOptions?.ttl === 0` holds (that is,
exactly when a numeric ttl is supplied), the path default otherwise. -/
def effectiveTtl (endpoint : String) (cacheOptions : Option CacheOptions) : Nat :=
  match cacheOptions.bind CacheOptions.ttl with
  | some t => t
  | none => getDefaultCacheTtl endpoint

/-- Externally observable side effects of a facade verb, in order: a cache
lookup, a cache store (with the ttl used), or one invocation of the
wrapped axios verb by the retry executor. -/
inductive Effect where
  | cacheRead (key : String)
  | cacheWrite (key : String) (ttl : Nat)
  | netAttempt
deriving DecidableEq

/-- The cache operations among a list of effects. -/
def cacheEffects (l : List Effect) : List Effect :=
  l.filter (fun e => match e with
    | .cacheRead _ => true
    | .cacheWrite _ _ => true
    | .netAttempt => false)

/-- Number of invocations of the wrapped axios verb among the effects. -/
def netAttemptCount (l : List Effect) : Nat :=
  (l.filter (fun e => e matches .netAttempt)).length

/-- Value returned or thrown by `get`. -/
inductive GetReturn where
  | ok (v : JsValue)
  | err (e : ApiError)
deriving DecidableEq

/-- Observable outcome of a `get` call. -/
structure GetOutcome where
  effects : List Effect
  result : GetReturn
  state : ClientState
deriving DecidableEq

/-- get from the source.  `cached` is what `cache.get(cacheKey, params)`
returns for the computed key (vUndefined when the store has no entry): a
truthy cached value is returned at once with no network activity;
otherwise the call runs through `executeWithRetry` and a success is stored
back with the effective TTL before its data is returned. -/
def HelpScoutClient.get (cfg : HelpScoutConfig) (now : Int)
    (oauth : Option OAuthTokenResponse) (st : ClientState) (endpoint : String)
    (cacheOptions : Option CacheOptions) (cached : JsValue)
    (ups : Nat → Upstream) (rand : Nat → ℚ) : GetOutcome :=
  let cacheKey := "GET:" ++ endpoint
  if jsTruthy cached then ⟨[.cacheRead cacheKey], .ok cached, st⟩
  else
    let t := clientRun cfg now oauth st ups rand defaultRetryConfigApi
    match t.result with
    | .ok r =>
        ⟨[.cacheRead cacheKey] ++ List.replicate t.attempts Effect.netAttempt
           ++ [.cacheWrite cacheKey (effectiveTtl endpoint cacheOptions)],
         .ok r.data, t.finalState⟩
    | .err e =>
        ⟨[.cacheRead cacheKey] ++ List.replicate t.attempts Effect.netAttempt,
         .err e, t.finalState⟩

/-- Value returned or thrown by `put` and `patch`: `ok none` models the
void return on a 204 no-content response. -/
inductive PutReturn where
  | ok (v : Option JsValue)
  | err (e : ApiError)
deriving DecidableEq

/-- put from the source: no cache interaction, one retry-executed call,
void on 204, the response data otherwise. -/
def HelpScoutClient.put (cfg : HelpScoutConfig) (now : Int)
    (oauth : Option OAuthTokenResponse) (st : ClientState) (_endpoint : String)
    (_data : JsValue) (ups : Nat → Upstream) (rand : Nat → ℚ) :
    List Effect × ClientState × PutReturn :=
  let t := clientRun cfg now oauth st ups rand defaultRetryConfigApi
  (List.replicate t.attempts Effect.netAttempt, t.finalState,
    match t.result with
    | .ok r => if r.status = 204 then .ok none else .ok (some r.data)
    | .err e => .err e)

/-- patch from the source: identical control flow to `put`. -/
def HelpScoutClient.patch (cfg : HelpScoutConfig) (now : Int)
    (oauth : Option OAuthTokenResponse) (st : ClientState) (_endpoint : String)
    (_data : JsValue) (ups : Nat → Upstream) (rand : Nat → ℚ) :
    List Effect × ClientState × PutReturn :=
  let t := clientRun cfg now oauth st ups rand defaultRetryConfigApi
  (List.replicate t.attempts Effect.netAttempt, t.finalState,
    match t.result with
    | .ok r => if r.status = 204 then .ok none else .ok (some r.data)
    | .err e => .err e)

/-- Value returned or thrown by `post`: on success the response data plus
the created-resource id folded in from the Resource-ID header when that
header is present (truthy). -/
inductive PostReturn where
  | ok (v : JsValue) (id : Option Nat)
  | err (e : ApiError)
deriving DecidableEq

/-- post from the source: no cache interaction, one retry-executed call,
and the Resource-ID header folded into the returned payload. -/
def HelpScoutClient.post (cfg : HelpScoutConfig) (now : Int)
    (oauth : Option OAuthTokenResponse) (st : ClientState) (_endpoint : String)
    (_data : JsValue) (ups : Nat → Upstream) (rand : Nat → ℚ) :
    List Effect × ClientState × PostReturn :=
  let t := clientRun cfg now oauth st ups rand defaultRetryConfigApi
  (List.replicate t.attempts Effect.netAttempt, t.finalState,
    match t.result with
    | .ok r =>
        match r.resourceId with
        | some rid => .ok r.data (some rid)
        | none => .ok r.data none
    | .err e => .err e)

/-- Connection pool configuration for the HTTP agents. -/
structure ConnectionPoolConfig where
  maxSockets : Nat
  maxFreeSockets : Nat
  timeout : Nat
  keepAlive : Bool
  keepAliveMsecs : Nat
deriving DecidableEq

/-- DEFAULT_POOL_CONFIG from the source. -/
def DEFAULT_POOL_CONFIG : ConnectionPoolConfig := ⟨50, 10, 30000, true, 1000⟩

/-- A `Partial ConnectionPoolConfig` as accepted by the constructor: every
field optionally overridden. -/
structure PoolConfigOpts where
  maxSockets : Option Nat
  maxFreeSockets : Option Nat
  timeout : Option Nat
  keepAlive : Option Bool
  keepAliveMsecs : Option Nat
deriving DecidableEq

/-- The spread-merge in the constructor,
`{...DEFAULT_POOL_CONFIG, ...poolConfig}`: supplied fields win. -/
def mergePoolConfig (d : ConnectionPoolConfig) (p : PoolConfigOpts) :
    ConnectionPoolConfig :=
  ⟨p.maxSockets.getD d.maxSockets,
   p.maxFreeSockets.getD d.maxFreeSockets,
   p.timeout.getD d.timeout,
   p.keepAlive.getD d.keepAlive,
   p.keepAliveMsecs.getD d.keepAliveMsecs⟩

/-- The agent configuration the constructor builds both agents with
(`finalPoolConfig`). -/
def constructorAgentConfig (p : PoolConfigOpts) : ConnectionPoolConfig :=
  mergePoolConfig DEFAULT_POOL_CONFIG p

/-- The agent configuration `clearIdleConnections` rebuilds both agents
with: a literal object in the source, independent of the instance. -/
def clearIdleAgentConfig : ConnectionPoolConfig := ⟨50, 10, 30000, true, 1000⟩

/-- Upper bound on the number of operation invocations: the loop started
with fuel `remaining` invokes the operation at most `remaining + 1` more
times. -/
theorem executeWithRetryGo_calls_le {ε : Type} (view : ε → JsErrorView)
    (cfg : RetryConfig ε) (op : Nat → Except ε Response) (rand : Nat → ℚ) :
    ∀ remaining attempt calls delays,
      (executeWithRetryGo view cfg op rand attempt remaining calls delays).calls
        ≤ calls + remaining + 1 := by
  intro remaining
  induction remaining with
  | zero =>
      intro attempt calls delays
      simp only [executeWithRetryGo]
      cases op attempt <;> simp [RetryResult.calls]
  | succ n ih =>
      intro attempt calls delays
      simp only [executeWithRetryGo]
      cases op attempt with
      | ok r => simp [RetryResult.calls]
      | error e =>
          by_cases h : shouldRetryError cfg e = true
          · simp only [h, if_true]
            have := ih (attempt + 1) (calls + 1)
              (delays ++ [retryDelayFor view cfg e attempt rand])
            omega
          · simp only [Bool.not_eq_true] at h
            simp [h, RetryResult.calls]

/-- If every attempt fails and the retry condition accepts every failure,
the loop performs every remaining attempt, sleeps once between successive
attempts, and propagates the failure of the last attempt. -/
theorem executeWithRetryGo_all_fail {ε : Type} (view : ε → JsErrorView)
    (cfg : RetryConfig ε) (op : Nat → Except ε Response) (rand : Nat → ℚ)
    (es : Nat → ε) (hop : ∀ i, op i = .error (es i))
    (hc : ∀ i, shouldRetryError cfg (es i) = true) :
    ∀ remaining attempt calls delays, ∃ ds,
      executeWithRetryGo view cfg op rand attempt remaining calls delays
          = .failure (es (attempt + remaining)) (calls + remaining + 1)
            (delays ++ ds)
        ∧ ds.length = remaining := by
  intro remaining
  induction remaining with
  | zero =>
      intro attempt calls delays
      refine ⟨[], ?_, rfl⟩
      simp [executeWithRetryGo, hop attempt]
  | succ n ih =>
      intro attempt calls delays
      obtain ⟨ds, hds, hlen⟩ :=
        ih (attempt + 1) (calls + 1)
          (delays ++ [retryDelayFor view cfg (es attempt) attempt rand])
      refine ⟨retryDelayFor view cfg (es attempt) attempt rand :: ds, ?_, ?_⟩
      · simp only [executeWithRetryGo, hop attempt, hc attempt, if_true]
        rw [hds]
        have h1 : attempt + 1 + n = attempt + (n + 1) := by omega
        have h2 : calls + 1 + n + 1 = calls + (n + 1) + 1 := by omega
        rw [h1, h2, List.append_assoc]
        rfl
      · simp [hlen]

/-- If the first attempt fails and the configured retry condition rejects
the failure, the loop stops at once with that failure, no sleeps. -/
theorem executeWithRetryGo_reject {ε : Type} (view : ε → JsErrorView)
    (cfg : RetryConfig ε) (op : Nat → Except ε Response) (rand : Nat → ℚ)
    (e : ε) (remaining attempt calls : Nat) (delays : List ℚ)
    (hop : op attempt = .error e) (hrej : shouldRetryError cfg e = false) :
    executeWithRetryGo view cfg op rand attempt remaining calls delays
      = .failure e (calls + 1) delays := by
  cases remaining with
  | zero => simp [executeWithRetryGo, hop]
  | succ n => simp [executeWithRetryGo, hop, hrej]

/-- C1: the Retry Executor makes at most `retries + 1` total attempts on
any wrapped operation (4 under the default configuration); when every
attempt fails retryably it performs exactly the allowed attempts and
propagates the failure of the last one with no further attempt; a failure
rejected by the retry predicate is propagated at once with no further
attempt and no sleep; and the default predicate accepts a failure exactly
when no response was received, or the error code is the client timeout
ECONNABORTED, or the response status lies in [500, 599], or the status is
exactly 429. -/
theorem C1_retry_executor_policy :
    (defaultRetryConfig.retries + 1 = 4)
  ∧ (∀ (ε : Type) (view : ε → JsErrorView) (cfg : RetryConfig ε)
       (op : Nat → Except ε Response) (rand : Nat → ℚ),
       (executeWithRetry view cfg op rand).calls ≤ cfg.retries + 1)
  ∧ (∀ (ε : Type) (view : ε → JsErrorView) (cfg : RetryConfig ε)
       (op : Nat → Except ε Response) (rand : Nat → ℚ) (es : Nat → ε),
       (∀ i, op i = .error (es i)) →
       (∀ i, shouldRetryError cfg (es i) = true) →
       ∃ ds, executeWithRetry view cfg op rand
           = .failure (es cfg.retries) (cfg.retries + 1) ds
         ∧ ds.length = cfg.retries)
  ∧ (∀ (ε : Type) (view : ε → JsErrorView) (cfg : RetryConfig ε)
       (op : Nat → Except ε Response) (rand : Nat → ℚ) (e : ε),
       op 0 = .error e → shouldRetryError cfg e = false →
       executeWithRetry view cfg op rand = .failure e 1 [])
  ∧ (∀ e : AxiosError, shouldRetryError defaultRetryConfig e = true ↔
       (e.response = none ∨ e.code = some "ECONNABORTED" ∨
        ∃ r, e.response = some r
          ∧ ((500 ≤ r.status ∧ r.status < 600) ∨ r.status = 429))) := by
  refine ⟨rfl, ?_, ?_, ?_, ?_⟩
  · intro ε view cfg op rand
    have := executeWithRetryGo_calls_le view cfg op rand cfg.retries 0 0 []
    unfold executeWithRetry
    omega
  · intro ε view cfg op rand es hop hc
    obtain ⟨ds, hds, hlen⟩ :=
      executeWithRetryGo_all_fail view cfg op rand es hop hc cfg.retries 0 0 []
    refine ⟨ds, ?_, hlen⟩
    simpa [executeWithRetry] using hds
  · intro ε view cfg op rand e hop hrej
    simpa [executeWithRetry] using
      executeWithRetryGo_reject view cfg op rand e cfg.retries 0 0 [] hop hrej
  · intro e
    obtain ⟨resp, code⟩ := e
    cases resp with
    | none =>
        simp [shouldRetryError, defaultRetryConfig, defaultRetryConditionView,
          AxiosError.view]
    | some r =>
        simp only [shouldRetryError, defaultRetryConfig,
          defaultRetryConditionView, AxiosError.view, Bool.or_eq_true,
          beq_iff_eq, Bool.and_eq_true, decide_eq_true_eq,
          Option.some.injEq, reduceCtorEq, false_or, exists_eq_left']
        tauto

/-- Witness for C1 at concrete inputs: the default policy allows 4 total
attempts, and a 404 failure (rejected by the default predicate) is
propagated after a single attempt with no sleep. -/
theorem C1_retry_executor_policy_witness :
    defaultRetryConfig.retries + 1 = 4
  ∧ executeWithRetry AxiosError.view defaultRetryConfig
      (fun _ => .error ⟨some ⟨404, none, none, .vObj 0⟩, none⟩) (fun _ => 0)
      = .failure ⟨some ⟨404, none, none, .vObj 0⟩, none⟩ 1 [] := by
  refine ⟨C1_retry_executor_policy.1, ?_⟩
  exact C1_retry_executor_policy.2.2.2.1 AxiosError AxiosError.view
    defaultRetryConfig _ (fun _ => 0) _ rfl (by decide)

/-- C3: for a non-rate-limit retryable failure at attempt index `attempt`,
the backoff delay computed by `calculateRetryDelay` equals the exponential
value `baseDelay * 2 ^ attempt` plus a jitter of at most 10 percent of
that exponential value, and the result never exceeds the configured
maximum delay. -/
theorem C3_exponential_backoff_jitter_cap (attempt : Nat)
    (baseDelay maxDelay r : ℚ) (h0 : 0 ≤ r) (h1 : r < 1)
    (hb : 0 ≤ baseDelay) :
    ∃ jitter, 0 ≤ jitter
      ∧ jitter ≤ (1 / 10) * (baseDelay * 2 ^ attempt)
      ∧ calculateRetryDelay attempt baseDelay maxDelay r
          = min (baseDelay * 2 ^ attempt + jitter) maxDelay
      ∧ calculateRetryDelay attempt baseDelay maxDelay r ≤ maxDelay := by
  have hE : (0 : ℚ) ≤ baseDelay * 2 ^ attempt := by positivity
  refine ⟨r * (1 / 10) * (baseDelay * 2 ^ attempt), ?_, ?_, rfl, ?_⟩
  · positivity
  · calc r * (1 / 10) * (baseDelay * 2 ^ attempt)
        = r * ((1 / 10) * (baseDelay * 2 ^ attempt)) := by ring
      _ ≤ 1 * ((1 / 10) * (baseDelay * 2 ^ attempt)) := by
          apply mul_le_mul_of_nonneg_right h1.le
          positivity
      _ = (1 / 10) * (baseDelay * 2 ^ attempt) := by ring
  · exact min_le_right _ _

/-- Witness for C3 at attempt index 1 with base delay 1000, maximum 10000
and a Math.random draw of one half: the delay is 2000 plus a jitter of at
most 200, capped at 10000. -/
theorem C3_exponential_backoff_jitter_cap_witness :
    ∃ jitter, 0 ≤ jitter
      ∧ jitter ≤ (1 / 10) * ((1000 : ℚ) * 2 ^ 1)
      ∧ calculateRetryDelay 1 1000 10000 (1 / 2)
          = min ((1000 : ℚ) * 2 ^ 1 + jitter) 10000
      ∧ calculateRetryDelay 1 1000 10000 (1 / 2) ≤ 10000 :=
  C3_exponential_backoff_jitter_cap 1 1000 10000 (1 / 2) (by norm_num)
    (by norm_num) (by norm_num)

/-- C2: contrary to the claim, a 429 rate-limit response never reaches the
retry executor as a failure: the validateStatus option accepts every
status below 500, so axios resolves the 429 response, `transformError`
never runs, and the client returns the 429 body as a success after a
single network call with no wait at all.  Evaluated with a static Bearer
token configured and an upstream that answers every request with 429 and
a Retry-After header of 5 seconds. -/
theorem C2_429_resolves_without_wait :
    clientRun ⟨some "Bearer statictoken", none, none⟩ 0 none ⟨none, 0⟩
        (fun _ => .reply ⟨429, some 5, none, .vObj 0⟩) (fun _ => 0)
        defaultRetryConfigApi
      = ⟨.ok ⟨429, some 5, none, .vObj 0⟩, 1, 1, 0, 1, [],
         ⟨some "statictoken", 86400000⟩⟩ := by
  decide

/-- C5: contrary to the claim, a 404 response is surfaced to the caller as
a success carrying the 404 body, not as a NOT_FOUND error: validateStatus
accepts 404, so no error is raised and `transformError` (whose 404 branch
would produce NOT_FOUND) never runs.  The part of the claim that holds is
that exactly one network call occurs.  Evaluated with a static Bearer
token configured and an upstream that answers every request with 404. -/
theorem C5_404_surfaced_as_success :
    clientRun ⟨some "Bearer statictoken", none, none⟩ 0 none ⟨none, 0⟩
        (fun _ => .reply ⟨404, none, none, .vObj 0⟩) (fun _ => 0)
        defaultRetryConfigApi
      = ⟨.ok ⟨404, none, none, .vObj 0⟩, 1, 1, 0, 1, [],
         ⟨some "statictoken", 86400000⟩⟩ := by
  decide

/-- C6: contrary to the claim, a 401 response does not clear the cached
access token: validateStatus accepts 401, so the response resolves as a
success, `transformError` (whose 401 branch clears the token) never runs,
the token stays cached, and the next outbound call passes the validity
check in ensureAuthenticated without re-triggering authentication.
Evaluated from a state holding a valid cached token against an upstream
that answers 401. -/
theorem C6_401_leaves_token_cached :
    clientRun ⟨none, none, none⟩ 0 none ⟨some "cachedtok", 1000000⟩
        (fun _ => .reply ⟨401, none, none, .vObj 0⟩) (fun _ => 0)
        defaultRetryConfigApi
      = ⟨.ok ⟨401, none, none, .vObj 0⟩, 1, 1, 0, 0, [],
         ⟨some "cachedtok", 1000000⟩⟩
  ∧ (ensureAuthenticated ⟨none, none, none⟩ 500000 none
        ⟨some "cachedtok", 1000000⟩).2 = false := by
  exact ⟨by decide, by decide⟩

/-- C9: contrary to the claim (and to the comment in the source),
`clearIdleConnections` does not rebuild the agents with the configuration
the instance was constructed with: it uses a hardcoded literal equal to
the defaults.  For an instance constructed with `maxSockets` overridden to
100 the rebuilt agents get 50. -/
theorem C9_clear_idle_config_mismatch :
    constructorAgentConfig ⟨some 100, none, none, none, none⟩
        = ⟨100, 10, 30000, true, 1000⟩
  ∧ clearIdleAgentConfig = ⟨50, 10, 30000, true, 1000⟩
  ∧ clearIdleAgentConfig
      ≠ constructorAgentConfig ⟨some 100, none, none, none, none⟩ := by
  exact ⟨by decide, by decide, by decide⟩

/-- C7 counterexample: with an API key configured that does not carry the
Bearer prefix alongside client credentials, `authenticate` does not take
the static-token path: it performs the OAuth2 exchange (upstream called)
and adopts the exchanged token, not the configured key. -/
theorem C7_static_token_without_bearer_counterexample :
    authenticate ⟨some "statictok", some "cid", some "csec"⟩ 0
        (some ⟨"oauthtok", 3600⟩)
      = .ok ⟨some "oauthtok", 3540000⟩ true
  ∧ authenticate ⟨some "statictok", some "cid", some "csec"⟩ 0
        (some ⟨"oauthtok", 3600⟩)
      ≠ .ok ⟨some "statictok", 86400000⟩ false := by
  exact ⟨by decide, by decide⟩

/-- C7 (amended): only an API key that is truthy and starts with the
literal Bearer prefix selects the static-token path; then, regardless of
any client-credential fields, the adopted token is the configured key with
the first Bearer prefix occurrence removed (not the key verbatim), the
expiry is a fixed 24 hours from now, and no upstream call is made. -/
theorem C7_bearer_static_token_precedence (cfg : HelpScoutConfig) (now : Int)
    (oauth : Option OAuthTokenResponse) (key : String)
    (hk : cfg.apiKey = some key) (hne : strIsEmpty key = false)
    (hb : strStartsWith key "Bearer " = true) :
    authenticate cfg now oauth
      = .ok ⟨some (jsReplaceFirst key "Bearer " ""),
             now + 24 * 60 * 60 * 1000⟩ false := by
  unfold authenticate
  rw [hk]
  simp [strTruthy, hne, hb]

/-- Witness for C7 at a concrete configuration that sets both a Bearer
API key and client credentials: the static path wins, the adopted token is
the key with the prefix stripped, and no upstream call occurs. -/
theorem C7_bearer_static_token_precedence_witness :
    authenticate ⟨some "Bearer abc", some "cid", some "csec"⟩ 5
        (some ⟨"oauthtok", 3600⟩)
      = .ok ⟨some "abc", 5 + 24 * 60 * 60 * 1000⟩ false := by
  have h := C7_bearer_static_token_precedence
    ⟨some "Bearer abc", some "cid", some "csec"⟩ 5 (some ⟨"oauthtok", 3600⟩)
    "Bearer abc" rfl (by decide) (by decide)
  exact h.trans (by decide)

/-- One when a call result is a success, zero when it is an error. -/
def okBit : CallResult → Nat
  | .ok _ => 1
  | .err _ => 0

/-- Within one attempt, `transformError` runs exactly when the attempt
does not resolve: every failing attempt is normalized right away by the
response interceptor. -/
theorem runAttempt_transform_bit (cfg : HelpScoutConfig) (now : Int)
    (oauth : Option OAuthTokenResponse) (st : ClientState) (u : Upstream) :
    okBit (runAttempt cfg now oauth st u).result
      + (if (runAttempt cfg now oauth st u).transformed then 1 else 0) = 1 := by
  unfold runAttempt
  cases h : (ensureAuthenticated cfg now oauth st).1 with
  | fail b => simp [h, okBit]
  | ok st1 b =>
      cases u with
      | reply r =>
          by_cases hv : validateStatus r.status = true
          · simp [h, hv, okBit]
          · simp only [Bool.not_eq_true] at hv
            simp [h, hv, okBit]
      | netError c => simp [h, okBit]

/-- Every error an attempt produces is an output of `transformError`. -/
theorem runAttempt_err_from_transform (cfg : HelpScoutConfig) (now : Int)
    (oauth : Option OAuthTokenResponse) (st : ClientState) (u : Upstream)
    (e : ApiError) (h : (runAttempt cfg now oauth st u).result = .err e) :
    ∃ st2 ae, e = (transformError st2 ae).2 := by
  unfold runAttempt at h
  cases ha : (ensureAuthenticated cfg now oauth st).1 with
  | fail b =>
      simp only [ha] at h
      exact ⟨st, ⟨none, none⟩, by injection h with h2; rw [h2]⟩
  | ok st1 b =>
      cases u with
      | reply r =>
          by_cases hv : validateStatus r.status = true
          · simp [ha, hv] at h
          · simp only [Bool.not_eq_true] at hv
            simp only [ha, hv, Bool.false_eq_true, if_false] at h
            exact ⟨st1, ⟨some r, none⟩, by injection h with h2; rw [h2]⟩
      | netError c =>
          simp only [ha] at h
          exact ⟨st1, ⟨none, c⟩, by injection h with h2; rw [h2]⟩

/-- Projection computation for `addDelay`. -/
theorem addDelay_attempts (acc : PipeAcc) (d : ℚ) :
    (addDelay acc d).attempts = acc.attempts := rfl

/-- Projection computation for `addDelay`. -/
theorem addDelay_transformCalls (acc : PipeAcc) (d : ℚ) :
    (addDelay acc d).transformCalls = acc.transformCalls := rfl

/-- Projection computation for `bump`. -/
theorem bump_attempts (acc : PipeAcc) (a : AttemptTrace) :
    (bump acc a).attempts = acc.attempts + 1 := rfl

/-- Projection computation for `bump`. -/
theorem bump_transformCalls (acc : PipeAcc) (a : AttemptTrace) :
    (bump acc a).transformCalls
      = acc.transformCalls + (if a.transformed then 1 else 0) := rfl

/-- Loop invariant: across the whole retry loop, the number of
`transformError` invocations equals the number of attempts, less one when
the run ends in a success (whose final attempt is not normalized). -/
theorem clientLoop_transform_invariant (cfg : HelpScoutConfig) (now : Int)
    (oauth : Option OAuthTokenResponse) (ups : Nat → Upstream)
    (rand : Nat → ℚ) (rc : RetryConfig ApiError) :
    ∀ remaining attempt acc,
      (clientLoop cfg now oauth ups rand rc attempt remaining acc).transformCalls
        + okBit (clientLoop cfg now oauth ups rand rc attempt remaining acc).result
        + acc.attempts
      = (clientLoop cfg now oauth ups rand rc attempt remaining acc).attempts
        + acc.transformCalls := by
  intro remaining
  induction remaining with
  | zero =>
      intro attempt acc
      have hb := runAttempt_transform_bit cfg now oauth acc.state (ups attempt)
      simp only [clientLoop, finish, bump]
      omega
  | succ n ih =>
      intro attempt acc
      have hb := runAttempt_transform_bit cfg now oauth acc.state (ups attempt)
      simp only [clientLoop]
      cases ha : (runAttempt cfg now oauth acc.state (ups attempt)).result with
      | ok r =>
          rw [ha] at hb
          simp only [finish, bump]
          simp only [okBit] at hb ⊢
          omega
      | err e =>
          rw [ha] at hb
          simp only [okBit] at hb
          by_cases hr : shouldRetryError rc e = true
          · simp only [hr, if_true]
            have hih := ih (attempt + 1)
              (addDelay (bump acc (runAttempt cfg now oauth acc.state (ups attempt)))
                (retryDelayFor ApiError.view rc e attempt rand))
            rw [addDelay_attempts, addDelay_transformCalls, bump_attempts,
              bump_transformCalls] at hih
            omega
          · simp only [Bool.not_eq_true] at hr
            simp only [hr, Bool.false_eq_true, if_false, finish, bump]
            simp only [okBit]
            omega

/-- Loop invariant: an error surfaced by the retry loop is always an
output of `transformError`. -/
theorem clientLoop_err_from_transform (cfg : HelpScoutConfig) (now : Int)
    (oauth : Option OAuthTokenResponse) (ups : Nat → Upstream)
    (rand : Nat → ℚ) (rc : RetryConfig ApiError) :
    ∀ remaining attempt acc e,
      (clientLoop cfg now oauth ups rand rc attempt remaining acc).result = .err e →
      ∃ st2 ae, e = (transformError st2 ae).2 := by
  intro remaining
  induction remaining with
  | zero =>
      intro attempt acc e h
      simp only [clientLoop, finish] at h
      exact runAttempt_err_from_transform cfg now oauth acc.state (ups attempt) e h
  | succ n ih =>
      intro attempt acc e h
      simp only [clientLoop] at h
      cases ha : (runAttempt cfg now oauth acc.state (ups attempt)).result with
      | ok r => rw [ha] at h; simp [finish] at h
      | err e2 =>
          rw [ha] at h
          by_cases hr : shouldRetryError rc e2 = true
          · simp only [hr, if_true] at h
            exact ih (attempt + 1) _ e h
          · simp only [Bool.not_eq_true] at hr
            simp only [hr, Bool.false_eq_true, if_false, finish] at h
            injection h with h2
            subst h2
            exact runAttempt_err_from_transform cfg now oauth acc.state
              (ups attempt) _ ha

/-- C4 counterexample: against an upstream that answers 500 on every
attempt (static Bearer token configured), the default-policy run makes 4
attempts and `transformError` runs 4 times, once per failed attempt inside
the response interceptor, not exactly once after the retry budget is
exhausted as the claim states. -/
theorem C4_transform_each_attempt_counterexample :
    (clientRun ⟨some "Bearer statictoken", none, none⟩ 0 none ⟨none, 0⟩
        (fun _ => .reply ⟨500, none, none, .vObj 0⟩) (fun _ => 0)
        defaultRetryConfigApi).transformCalls = 4
  ∧ (clientRun ⟨some "Bearer statictoken", none, none⟩ 0 none ⟨none, 0⟩
        (fun _ => .reply ⟨500, none, none, .vObj 0⟩) (fun _ => 0)
        defaultRetryConfigApi).attempts = 4
  ∧ ¬ ((clientRun ⟨some "Bearer statictoken", none, none⟩ 0 none ⟨none, 0⟩
        (fun _ => .reply ⟨500, none, none, .vObj 0⟩) (fun _ => 0)
        defaultRetryConfigApi).transformCalls = 1) := by
  exact ⟨by decide, by decide, by decide⟩

/-- C4 (amended): the error-normalization mapping `transformError` runs
once per failed attempt, inside the response interceptor and hence before
the retry predicate inspects the failure (so the predicate sees normalized
errors, not raw transport errors): over any run its invocation count
equals the number of attempts, less one exactly when the run succeeds.
The final clause of the claim stands: whenever the call terminally fails,
the error the caller receives is an output of the normalizer, never a raw
transport exception. -/
theorem C4_transform_runs_per_attempt (cfg : HelpScoutConfig) (now : Int)
    (oauth : Option OAuthTokenResponse) (st : ClientState)
    (ups : Nat → Upstream) (rand : Nat → ℚ) (rc : RetryConfig ApiError) :
    (clientRun cfg now oauth st ups rand rc).transformCalls
        + okBit (clientRun cfg now oauth st ups rand rc).result
      = (clientRun cfg now oauth st ups rand rc).attempts
  ∧ (∀ e, (clientRun cfg now oauth st ups rand rc).result = .err e →
      ∃ st2 ae, e = (transformError st2 ae).2) := by
  constructor
  · have := clientLoop_transform_invariant cfg now oauth ups rand rc
      rc.retries 0 ⟨0, 0, 0, 0, [], st⟩
    simpa [clientRun] using this
  · intro e he
    exact clientLoop_err_from_transform cfg now oauth ups rand rc
      rc.retries 0 ⟨0, 0, 0, 0, [], st⟩ e he

/-- Witness for C4 at the all-500 run: 4 attempts, 4 normalizations, and
the surfaced terminal failure is an output of the normalizer. -/
theorem C4_transform_runs_per_attempt_witness :
    ((clientRun ⟨some "Bearer statictoken", none, none⟩ 0 none ⟨none, 0⟩
        (fun _ => .reply ⟨500, none, none, .vObj 0⟩) (fun _ => 0)
        defaultRetryConfigApi).transformCalls
      + okBit (clientRun ⟨some "Bearer statictoken", none, none⟩ 0 none ⟨none, 0⟩
          (fun _ => .reply ⟨500, none, none, .vObj 0⟩) (fun _ => 0)
          defaultRetryConfigApi).result
      = (clientRun ⟨some "Bearer statictoken", none, none⟩ 0 none ⟨none, 0⟩
          (fun _ => .reply ⟨500, none, none, .vObj 0⟩) (fun _ => 0)
          defaultRetryConfigApi).attempts)
  ∧ (∃ st2 ae, (⟨"UPSTREAM_ERROR", none⟩ : ApiError) = (transformError st2 ae).2) := by
  refine ⟨(C4_transform_runs_per_attempt ⟨some "Bearer statictoken", none, none⟩ 0
    none ⟨none, 0⟩ (fun _ => .reply ⟨500, none, none, .vObj 0⟩) (fun _ => 0)
    defaultRetryConfigApi).1, ?_⟩
  exact (C4_transform_runs_per_attempt ⟨some "Bearer statictoken", none, none⟩ 0
    none ⟨none, 0⟩ (fun _ => .reply ⟨500, none, none, .vObj 0⟩) (fun _ => 0)
    defaultRetryConfigApi).2 ⟨"UPSTREAM_ERROR", none⟩ (by decide)

/-- The retry executor emits only network-attempt effects. -/
theorem cacheEffects_replicate_net (n : Nat) :
    cacheEffects (List.replicate n Effect.netAttempt) = [] := by
  induction n with
  | zero => rfl
  | succ k _ih => simp [List.replicate_succ, cacheEffects, List.filter]

/-- Counting network attempts among the executor effects. -/
theorem netAttemptCount_replicate (n : Nat) :
    netAttemptCount (List.replicate n Effect.netAttempt) = n := by
  induction n with
  | zero => rfl
  | succ k _ih => simp [List.replicate_succ, netAttemptCount, List.filter]

/-- Every run of the retry loop invokes the wrapped operation at least
once. -/
theorem clientLoop_attempts_pos (cfg : HelpScoutConfig) (now : Int)
    (oauth : Option OAuthTokenResponse) (ups : Nat → Upstream)
    (rand : Nat → ℚ) (rc : RetryConfig ApiError) :
    ∀ remaining attempt acc,
      acc.attempts + 1
        ≤ (clientLoop cfg now oauth ups rand rc attempt remaining acc).attempts := by
  intro remaining
  induction remaining with
  | zero =>
      intro attempt acc
      simp [clientLoop, finish, bump]
  | succ n ih =>
      intro attempt acc
      simp only [clientLoop]
      cases ha : (runAttempt cfg now oauth acc.state (ups attempt)).result with
      | ok r => simp [finish, bump]
      | err e =>
          by_cases hr : shouldRetryError rc e = true
          · simp only [hr, if_true]
            have hih := ih (attempt + 1)
              (addDelay (bump acc (runAttempt cfg now oauth acc.state (ups attempt)))
                (retryDelayFor ApiError.view rc e attempt rand))
            rw [addDelay_attempts, bump_attempts] at hih
            omega
          · simp only [Bool.not_eq_true] at hr
            simp [hr, finish, bump]

/-- C8: the mutating verbs put, post and patch perform no cache read and
no cache write, for every configuration, state, endpoint, payload and
upstream behaviour; their only effects are the network attempts of the
retry executor. -/
theorem C8_mutating_verbs_touch_no_cache (cfg : HelpScoutConfig) (now : Int)
    (oauth : Option OAuthTokenResponse) (st : ClientState) (endpoint : String)
    (data : JsValue) (ups : Nat → Upstream) (rand : Nat → ℚ) :
    cacheEffects (HelpScoutClient.put cfg now oauth st endpoint data ups rand).1 = []
  ∧ cacheEffects (HelpScoutClient.post cfg now oauth st endpoint data ups rand).1 = []
  ∧ cacheEffects (HelpScoutClient.patch cfg now oauth st endpoint data ups rand).1 = [] := by
  refine ⟨?_, ?_, ?_⟩ <;>
    simp [HelpScoutClient.put, HelpScoutClient.post, HelpScoutClient.patch,
      cacheEffects_replicate_net]


/-- Network attempts count additively across effect lists. -/
theorem netAttemptCount_append (l1 l2 : List Effect) :
    netAttemptCount (l1 ++ l2) = netAttemptCount l1 + netAttemptCount l2 := by
  simp [netAttemptCount, List.filter_append]

/-- A cache read is not a network attempt. -/
theorem netAttemptCount_singleton_read (k : String) :
    netAttemptCount [Effect.cacheRead k] = 0 := rfl

/-- A cache write is not a network attempt. -/
theorem netAttemptCount_singleton_write (k : String) (t : Nat) :
    netAttemptCount [Effect.cacheWrite k t] = 0 := rfl

/-- A full verb run always makes at least one attempt. -/
theorem clientRun_attempts_pos (cfg : HelpScoutConfig) (now : Int)
    (oauth : Option OAuthTokenResponse) (st : ClientState)
    (ups : Nat → Upstream) (rand : Nat → ℚ) (rc : RetryConfig ApiError) :
    1 ≤ (clientRun cfg now oauth st ups rand rc).attempts := by
  have := clientLoop_attempts_pos cfg now oauth ups rand rc
    rc.retries 0 ⟨0, 0, 0, 0, [], st⟩
  simpa [clientRun] using this

/-- C10: a falsy cached value (undefined, null, empty string, zero or
false) is treated as a cache miss by `get`: the call proceeds to the retry
executor, which invokes the network verb at least once; conversely a `get`
with no network activity happens only when the cached value is truthy, in
which case the cached value itself is returned. -/
theorem C10_falsy_cached_value_is_miss (cfg : HelpScoutConfig) (now : Int)
    (oauth : Option OAuthTokenResponse) (st : ClientState) (endpoint : String)
    (cacheOptions : Option CacheOptions) (cached : JsValue)
    (ups : Nat → Upstream) (rand : Nat → ℚ) :
    (jsTruthy cached = false →
      1 ≤ netAttemptCount
        (HelpScoutClient.get cfg now oauth st endpoint cacheOptions cached
          ups rand).effects)
  ∧ (netAttemptCount
        (HelpScoutClient.get cfg now oauth st endpoint cacheOptions cached
          ups rand).effects = 0 →
      jsTruthy cached = true
      ∧ (HelpScoutClient.get cfg now oauth st endpoint cacheOptions cached
          ups rand).result = .ok cached) := by
  by_cases ht : jsTruthy cached = true
  · refine ⟨fun hf => ?_, fun _ => ⟨ht, ?_⟩⟩
    · rw [ht] at hf; cases hf
    · simp [HelpScoutClient.get, ht]
  · simp only [Bool.not_eq_true] at ht
    have hpos := clientRun_attempts_pos cfg now oauth st ups rand defaultRetryConfigApi
    constructor
    · intro _
      simp only [HelpScoutClient.get, ht, Bool.false_eq_true, if_false]
      cases hres : (clientRun cfg now oauth st ups rand defaultRetryConfigApi).result with
      | ok r =>
          simp only [hres, netAttemptCount_append, netAttemptCount_replicate,
            netAttemptCount_singleton_read, netAttemptCount_singleton_write]
          omega
      | err e =>
          simp only [hres, netAttemptCount_append, netAttemptCount_replicate,
            netAttemptCount_singleton_read]
          omega
    · intro hzero
      exfalso
      simp only [HelpScoutClient.get, ht, Bool.false_eq_true, if_false] at hzero
      cases hres : (clientRun cfg now oauth st ups rand defaultRetryConfigApi).result with
      | ok r =>
          simp only [hres, netAttemptCount_append, netAttemptCount_replicate,
            netAttemptCount_singleton_read, netAttemptCount_singleton_write] at hzero
          omega
      | err e =>
          simp only [hres, netAttemptCount_append, netAttemptCount_replicate,
            netAttemptCount_singleton_read] at hzero
          omega

/-- Witness for C10: with an empty string cached (falsy) the call makes a
network attempt; with an object cached (truthy) the call makes no network
attempt and returns the cached object. -/
theorem C10_falsy_cached_value_is_miss_witness :
    1 ≤ netAttemptCount
        (HelpScoutClient.get ⟨some "Bearer statictoken", none, none⟩ 0 none
          ⟨none, 0⟩ "/mailboxes" none (.vStr "")
          (fun _ => .reply ⟨200, none, none, .vObj 7⟩) (fun _ => 0)).effects
  ∧ (jsTruthy (.vObj 7) = true
      ∧ (HelpScoutClient.get ⟨some "Bearer statictoken", none, none⟩ 0 none
          ⟨none, 0⟩ "/mailboxes" none (.vObj 7)
          (fun _ => .reply ⟨200, none, none, .vObj 7⟩) (fun _ => 0)).result
        = .ok (.vObj 7)) := by
  constructor
  · exact (C10_falsy_cached_value_is_miss ⟨some "Bearer statictoken", none, none⟩
      0 none ⟨none, 0⟩ "/mailboxes" none (.vStr "")
      (fun _ => .reply ⟨200, none, none, .vObj 7⟩) (fun _ => 0)).1 (by decide)
  · exact (C10_falsy_cached_value_is_miss ⟨some "Bearer statictoken", none, none⟩
      0 none ⟨none, 0⟩ "/mailboxes" none (.vObj 7)
      (fun _ => .reply ⟨200, none, none, .vObj 7⟩) (fun _ => 0)).2 (by decide)
